import Mathlib

/-!
A shallow embedding of `src/zstdfile.c` (cemeyer/Zlib-FILE): a seekable,
read-only decompressing byte-stream adapter over zstd, exposed through
`fopencookie`.  The embedding follows the C source function by function:
`zstdfile_init`, `zstdopenfile`, `zstdfile_read`, `zstdfile_seek`.

Modelling conventions:
- bytes are `Nat` (the adapter never performs byte arithmetic);
- the underlying `FILE *in` is a finite byte list `src` plus a position
  `src_pos`; `fread` returns `min requested (src.length - src_pos)` bytes
  and reports end-of-file when that is zero; I/O errors (`ferror`) of the
  source never occur in the model, so the `errno == ENOBUFS` heuristic
  branch and the fatal `err(1, ...)` branch of the refill phase are
  unreachable (truncation is still reachable through the clean
  end-of-source branch, `nb == 0 && feof`);
- the zstd decompression engine is an external library, out of scope of
  the repository; it is modelled from the spec as a concrete instance of
  the interface the spec states ("feed input/output buffers and advance"
  semantics plus a frame-boundary signal), see `ZSTD_decompressStream`;
- the C do/while read loop is written with an explicit iteration bound
  (`fuel`).  Each iteration that recurses has strictly consumed source or
  input-buffer bytes, or observed the frame-complete signal (which ends
  the loop on the next iteration), so the number of iterations is bounded
  by `2*(source bytes left) + (input-buffer bytes left) + 2 = readFuel`;
  the fuel-exhaustion branch is unreachable.
-/

namespace Zstdfile

/-- A byte of the source or of decoded output. -/
abbrev Byte := Nat

/-- `ZSTD_MAGICNUMBER` from zstd.h (frozen since zstd 0.8.0). -/
def ZSTD_MAGICNUMBER : Nat := 0xFD2FB528

/-- `le32dec` (sys/endian.h): decode the first 4 bytes little-endian. -/
def le32dec (l : List Byte) : Nat :=
  l.getD 0 0 + 256 * (l.getD 1 0 + 256 * (l.getD 2 0 + 256 * l.getD 3 0))

/-- `ZSTD_DStreamInSize()`: recommended input chunk size (zstd: 131075). -/
def ZSTD_DStreamInSize : Nat := 131075

/-- `ZSTD_DStreamOutSize()`: recommended output chunk size (zstd: 131072). -/
def ZSTD_DStreamOutSize : Nat := 131072

/-- `ENOBUFS` (Linux value); the distinguishable error indicator the
adapter reports for truncated/incomplete compressed data. -/
def ENOBUFS : Nat := 105

/-- `SEEK_SET`. -/
def SEEK_SET : Nat := 0

/-- `SEEK_CUR`. -/
def SEEK_CUR : Nat := 1

/-- `SEEK_END`. -/
def SEEK_END : Nat := 2

/-- Modelled from the spec: the decompression engine session state
(`ZSTD_DCtx`).  The engine itself is an out-of-scope collaborator ("an
opaque library offering create/init/reset, feed input/output buffers and
advance semantics, and an error/frame-boundary signal").  We instantiate
that interface with a concrete streaming codec whose frame is: the 4-byte
magic, one payload-length byte, then the payload verbatim.  `hdr` counts
frame-header bytes consumed (0..5), `len` is the payload length once
`hdr = 5`, `emitted` counts payload bytes produced so far. -/
structure DState where
  hdr : Nat
  len : Nat
  emitted : Nat
deriving Repr, DecidableEq

/-- `ZSTD_createDCtx()` followed by `ZSTD_initDStream()`: a fresh engine
session. -/
def ZSTD_createDCtx : DState := ⟨0, 0, 0⟩

/-- The engine's return value after a `ZSTD_decompressStream` call: `0`
exactly when a frame is completely decoded and fully flushed (the
frame-boundary signal the C code tests with `ret == 0`), otherwise a
nonzero hint. -/
def dret (ds : DState) : Nat :=
  if 5 ≤ ds.hdr ∧ ds.len ≤ ds.emitted then 0 else 1

/-- Modelled from the spec: one invocation of the engine
(`ZSTD_decompressStream`).  It greedily consumes the unconsumed input
slice byte by byte, emitting payload bytes into the output buffer while
capacity `cap` remains, and stops consuming at frame end.  Returns the new
session state, the number of input bytes consumed (the advance of
`ibuf.pos`) and the bytes written to the output buffer (the advance of
`obuf.pos`).  The engine never fails on inputs this adapter feeds it, so
the fatal `ZSTD_isError` branch of the C read loop is unreachable. -/
def ZSTD_decompressStream : DState → List Byte → Nat → DState × Nat × List Byte
  | ds, [], _ => (ds, 0, [])
  | ds, b :: rest, cap =>
    if ds.hdr < 4 then
      let r := ZSTD_decompressStream ⟨ds.hdr + 1, ds.len, ds.emitted⟩ rest cap
      (r.1, r.2.1 + 1, r.2.2)
    else if ds.hdr = 4 then
      let r := ZSTD_decompressStream ⟨5, b, 0⟩ rest cap
      (r.1, r.2.1 + 1, r.2.2)
    else if ds.emitted < ds.len then
      if cap = 0 then (ds, 0, [])
      else
        let r := ZSTD_decompressStream ⟨ds.hdr, ds.len, ds.emitted + 1⟩ rest (cap - 1)
        (r.1, r.2.1 + 1, b :: r.2.2)
    else (ds, 0, [])

/-- `struct zstdfile` (the cookie).  The C buffer-and-cursor pairs are
represented as: `inbuf` holds exactly the valid bytes of the input buffer
(so `ibuf.size = inbuf.length`) with `ibuf_pos` the consumed prefix;
`outbuf` holds exactly the valid decoded bytes (so `obuf.pos =
outbuf.length`) with `outbuf_start` the delivered prefix. -/
structure ZFile where
  src : List Byte
  src_pos : Nat
  logic_offset : Nat
  decode_offset : Nat
  actual_len : Nat
  outbuf_start : Nat
  outbuf : List Byte
  inbuf : List Byte
  ibuf_pos : Nat
  decomp : DState
  eof : Bool
  truncated : Bool
deriving Repr, DecidableEq

/-- `zstdfile_init`: reset offsets, create a fresh engine session,
allocate empty buffers, clear cursors and the `eof`/`truncated` flags.
The source handle (and its position) is untouched. -/
def zstdfile_init (c : ZFile) : ZFile :=
  { c with logic_offset := 0, decode_offset := 0, actual_len := 0,
           decomp := ZSTD_createDCtx,
           inbuf := [], ibuf_pos := 0,
           outbuf := [], outbuf_start := 0,
           eof := false, truncated := false }

/-- The engine invocation step of the read loop (`zstdfile.c:327-339`):
reset the output buffer cursors to the beginning, call
`ZSTD_decompressStream` on the unconsumed input slice, account the
produced bytes into `actual_len`.  Returns the new state and the engine's
return value `ret`. -/
def engineStep (s : ZFile) : ZFile × Nat :=
  let r := ZSTD_decompressStream s.decomp (s.inbuf.drop s.ibuf_pos) ZSTD_DStreamOutSize
  ({ s with decomp := r.1, ibuf_pos := s.ibuf_pos + r.2.1,
            outbuf := r.2.2, outbuf_start := 0,
            actual_len := s.actual_len + r.2.2.length }, dret r.1)

/-- The do/while loop of `zstdfile_read` (`zstdfile.c:242-340`).  One
iteration: drain the output buffer (the C inner while collapses to one
arithmetic pass: skip up to `ignorebytes`, then copy `min left size`
bytes), stop when the request is satisfied, set `eof` and stop when the
previous engine call signalled frame end (`ret = 0`), refill the input
buffer from the source when fully consumed (clean end-of-source mid-frame
sets `truncated` and falls to the error path), then invoke the engine and
iterate.  `fuel` bounds the iteration count (see the file header); the
fuel-exhaustion branch is unreachable for the fuel `zstdfile_read`
supplies.  Returns the bytes delivered to the caller and the new state. -/
def readLoop : Nat → ZFile → Nat → Nat → Nat → List Byte → List Byte × ZFile
  | 0, s, _, _, _, acc => (acc, s)
  | fuel + 1, s, ret, ignorebytes, size, acc =>
    let left0 := s.outbuf.length - s.outbuf_start
    let ignoreskip := min ignorebytes left0
    let s1 : ZFile := { s with outbuf_start := s.outbuf_start + ignoreskip,
                               decode_offset := s.decode_offset + ignoreskip }
    let ign1 := ignorebytes - ignoreskip
    let left1 := left0 - ignoreskip
    let toread := if 0 < ign1 then 0 else min left1 size
    let copied := (s1.outbuf.drop s1.outbuf_start).take toread
    let s2 : ZFile := { s1 with outbuf_start := s1.outbuf_start + toread,
                                decode_offset := s1.decode_offset + toread,
                                logic_offset := s1.logic_offset + toread }
    let size1 := size - toread
    let acc1 := acc ++ copied
    if size1 = 0 then (acc1, s2)
    else if ret = 0 then (acc1, { s2 with eof := true })
    else if s2.inbuf.length ≤ s2.ibuf_pos then
      -- `ibuf.pos == ibuf.size`: refill the input buffer from the source
      let nb := min ZSTD_DStreamInSize (s2.src.length - s2.src_pos)
      if nb = 0 then (acc1, { s2 with truncated := true })
      else
        let s3 : ZFile := { s2 with inbuf := (s2.src.drop s2.src_pos).take nb,
                                    src_pos := s2.src_pos + nb, ibuf_pos := 0 }
        let es := engineStep s3
        readLoop fuel es.1 es.2 ign1 size1 acc1
    else
      let es := engineStep s2
      readLoop fuel es.1 es.2 ign1 size1 acc1

/-- Result of one `zstdfile_read` call: the C return value `rc`, the bytes
written into the caller's buffer, the new stream state, and the `errno`
value set by the call (if any). -/
structure RRes where
  rc : Int
  out : List Byte
  st : ZFile
  errno : Option Nat
deriving Repr, DecidableEq

/-- Iteration bound for the read loop; see the file header. -/
def readFuel (s : ZFile) : Nat :=
  2 * (s.src.length - s.src_pos) + (s.inbuf.length - s.ibuf_pos) + 2

/-- `zstdfile_read` (`zstdfile.c:212-367`).  Size 0 returns 0; `eof`
returns 0; a pre-set `truncated` flag falls straight to the error path.
Otherwise run the loop; then the shared exit path `out:`: a positive
delivered count is returned as a (possibly short) read, else a truncated
stream reports `ENOBUFS`, sets `eof` and returns -1, else clean
end-of-stream returns 0. -/
def zstdfile_read (s : ZFile) (size : Nat) : RRes :=
  if size = 0 then ⟨0, [], s, none⟩
  else if s.eof then ⟨0, [], s, none⟩
  else if s.truncated then ⟨-1, [], { s with eof := true }, some ENOBUFS⟩
  else
    let ignorebytes := s.logic_offset - s.decode_offset
    let r := readLoop (readFuel s) s 1 ignorebytes size []
    if 0 < r.1.length then ⟨(r.1.length : Int), r.1, r.2, none⟩
    else if r.2.truncated then ⟨-1, r.1, { r.2 with eof := true }, some ENOBUFS⟩
    else ⟨0, r.1, r.2, none⟩

/-- Result of one `zstdfile_seek` call: the C return value `rc` (0 or -1),
the value left in `*offset_` (the new absolute offset on success; the
caller's original value on failure, since the C code only writes it on
success), and the stream state after the call. -/
structure SeekRes where
  rc : Int
  off : Int
  st : ZFile
deriving Repr, DecidableEq

/-- The forward-seek emulation loop of `zstdfile_seek`
(`zstdfile.c:397-421`): while the target is ahead of `logic_offset`, read
and discard up to 32 KiB at a time.  An inner read error aborts the seek
with -1 (keeping whatever state the reads left behind); an inner read of 0
(clean end-of-stream) clamps the target to the current offset.  `fuel`
bounds the iterations: every continuing iteration delivered at least one
byte toward the target, so `target - logic_offset + 1` iterations always
suffice and the fuel-exhaustion branch is unreachable for the fuel
`zstdfile_seek` supplies. -/
def skipLoop : Nat → ZFile → Int → Int → SeekRes
  | 0, s, _, offset0 => ⟨-1, offset0, s⟩
  | fuel + 1, s, new_offset, offset0 =>
    if (s.logic_offset : Int) < new_offset then
      let diff := min (32 * 1024) (new_offset.toNat - s.logic_offset)
      let r := zstdfile_read s diff
      if r.rc < 0 then ⟨-1, offset0, r.st⟩
      else if r.rc = 0 then ⟨0, (r.st.logic_offset : Int), r.st⟩
      else skipLoop fuel r.st new_offset offset0
    else ⟨0, new_offset, s⟩

/-- The body of `zstdfile_seek` once the absolute target `new_offset` has
been computed (`zstdfile.c:384-427`): reject a negative target; reject a
backward target other than 0; target 0 is a full reset (cleanup, rewind
the source, init); a target ahead of `logic_offset` is emulated by the
skip loop; a target equal to `logic_offset` is a no-op. -/
def zstdfile_seekTo (s : ZFile) (new_offset : Int) (offset0 : Int) : SeekRes :=
  if new_offset < 0 then ⟨-1, offset0, s⟩
  else if new_offset < (s.logic_offset : Int) ∧ new_offset ≠ 0 then ⟨-1, offset0, s⟩
  else if new_offset = 0 then ⟨0, 0, zstdfile_init { s with src_pos := 0 }⟩
  else if (s.logic_offset : Int) < new_offset then
    skipLoop (new_offset.toNat - s.logic_offset + 1) s new_offset offset0
  else ⟨0, new_offset, s⟩

/-- `zstdfile_seek` (`zstdfile.c:369-428`): only `SEEK_SET` and `SEEK_CUR`
(relative to `logic_offset`) are accepted; any other `whence` (including
`SEEK_END`) fails with -1 and no state change. -/
def zstdfile_seek (s : ZFile) (offset : Int) (whence : Nat) : SeekRes :=
  if whence = SEEK_SET then zstdfile_seekTo s offset offset
  else if whence = SEEK_CUR then zstdfile_seekTo s ((s.logic_offset : Int) + offset) offset
  else ⟨-1, offset, s⟩

/-- A `FILE` stream of the underlying byte source: its whole content and
the current read position. -/
structure CFile where
  content : List Byte
  pos : Nat
deriving Repr, DecidableEq

/-- Result of `zstdopenfile`: `error` is the `NULL` return (bad mode,
source error, short header, or allocation failure); `plain` hands the
original, unwrapped source back with `*was_zstd = false`; `zstd` is a
`fopencookie` stream over a freshly initialized cookie with
`*was_zstd = true`.  Only the `zstd` case allocates a Stream State. -/
inductive OpenResult where
  | error : OpenResult
  | plain : CFile → OpenResult
  | zstd : ZFile → OpenResult
deriving Repr, DecidableEq

/-- The cookie `zstdopenfile` builds for a compressed source: `cookie->in`
is the source rewound to position 0, and every other field is set by
`zstdfile_init`. -/
def openCookie (content : List Byte) : ZFile :=
  zstdfile_init ⟨content, 0, 0, 0, 0, 0, [], [], 0, ZSTD_createDCtx, false, false⟩

/-- `zstdopenfile` (`zstdfile.c:140-193`).  Write/append modes are
rejected (`EINVAL`).  Read 4 header bytes from the source's current
position; fewer than 4 available is fatal malformed input (`NULL`).
Rewind the source.  If the header does not decode (little-endian) to
`ZSTD_MAGICNUMBER`, return the original source itself, flagged "not
compressed"; otherwise allocate and initialize the cookie and wrap it. -/
def zstdopenfile (f : CFile) (mode : List Char) : OpenResult :=
  if mode.contains 'w' || mode.contains 'a' then OpenResult.error
  else
    let nbr := min 4 (f.content.length - f.pos)
    if nbr < 4 then OpenResult.error
    else
      let hdr := (f.content.drop f.pos).take 4
      if le32dec hdr ≠ ZSTD_MAGICNUMBER then OpenResult.plain ⟨f.content, 0⟩
      else OpenResult.zstd (openCookie f.content)

/-- Apply a sequence of read calls of the given sizes, collecting each
call's return value and delivered bytes. -/
def readSeq (s : ZFile) (sizes : List Nat) : List (Int × List Byte) :=
  match sizes with
  | [] => []
  | n :: rest =>
    let r := zstdfile_read s n
    (r.rc, r.out) :: readSeq r.st rest

/-- The absolute seek target `zstdfile_seek` computes from `offset` and
`whence` when `whence` is `SEEK_SET` or `SEEK_CUR` (`zstdfile.c:375-378`). -/
def seekTarget (s : ZFile) (offset : Int) (whence : Nat) : Int :=
  if whence = SEEK_SET then offset else (s.logic_offset : Int) + offset

/-- The stream states reachable through the adapter's public operations:
a successful compressed open, and any sequence of reads and seeks. -/
inductive Reachable : ZFile → Prop where
  | opened : ∀ (f : CFile) (mode : List Char) (s : ZFile),
      zstdopenfile f mode = OpenResult.zstd s → Reachable s
  | read : ∀ (s : ZFile) (n : Nat), Reachable s → Reachable (zstdfile_read s n).st
  | seek : ∀ (s : ZFile) (off : Int) (wh : Nat), Reachable s →
      Reachable (zstdfile_seek s off wh).st

/-- A source holding one complete frame in the modelled format: the zstd
magic (little-endian `0xFD2FB528`), the payload length 11, then
"hello world". -/
def helloSrc : List Byte :=
  [0x28, 0xB5, 0x2F, 0xFD, 11, 104, 101, 108, 108, 111, 32, 119, 111, 114, 108, 100]

/-- The same frame truncated mid-payload: the header declares 11 payload
bytes but the source ends after "hello". -/
def helloTrunc : List Byte :=
  [0x28, 0xB5, 0x2F, 0xFD, 11, 104, 101, 108, 108, 111]

/-- The engine invocation never changes `logic_offset`. -/
lemma engineStep_logic (s : ZFile) : (engineStep s).1.logic_offset = s.logic_offset := rfl

/-- The engine invocation never changes `decode_offset`. -/
lemma engineStep_decode (s : ZFile) : (engineStep s).1.decode_offset = s.decode_offset := rfl

/-- When the read loop starts with `ignorebytes = 0`, the drain phase
advances `logic_offset` and `decode_offset` in lockstep, so their equality
is preserved. -/
lemma readLoop_pres :
    ∀ (fuel : Nat) (s : ZFile) (ret sz : Nat) (acc : List Byte),
      s.logic_offset = s.decode_offset →
      (readLoop fuel s ret 0 sz acc).2.logic_offset
        = (readLoop fuel s ret 0 sz acc).2.decode_offset := by
  intro fuel
  induction fuel with
  | zero => intro s ret sz acc h; simpa [readLoop] using h
  | succ n ih =>
    intro s ret sz acc h
    rw [readLoop]
    simp only [Nat.zero_min, Nat.zero_sub, Nat.add_zero, Nat.sub_zero, Nat.lt_irrefl,
      if_false, Nat.sub_self]
    split
    · simp; omega
    · split
      · simp; omega
      · split
        · split
          · simp; omega
          · apply ih
            simp [engineStep_logic, engineStep_decode]
            omega
        · apply ih
          simp [engineStep_logic, engineStep_decode]
          omega

/-- A read call preserves the equality of `logic_offset` and
`decode_offset` (so `ignorebytes` is again 0 at the next call). -/
lemma read_pres (s : ZFile) (n : Nat) (h : s.logic_offset = s.decode_offset) :
    (zstdfile_read s n).st.logic_offset = (zstdfile_read s n).st.decode_offset := by
  unfold zstdfile_read
  split
  · simpa using h
  · split
    · simpa using h
    · split
      · simpa using h
      · rw [h, Nat.sub_self]
        dsimp only
        split
        · exact readLoop_pres _ s 1 n [] h
        · split
          · simpa using readLoop_pres _ s 1 n [] h
          · exact readLoop_pres _ s 1 n [] h

/-- The forward-seek skip loop preserves the equality of the two offsets
(it only issues read calls). -/
lemma skipLoop_pres :
    ∀ (fuel : Nat) (s : ZFile) (t o : Int), s.logic_offset = s.decode_offset →
      (skipLoop fuel s t o).st.logic_offset = (skipLoop fuel s t o).st.decode_offset := by
  intro fuel
  induction fuel with
  | zero => intro s t o h; simpa [skipLoop] using h
  | succ n ih =>
    intro s t o h
    rw [skipLoop]
    split
    · dsimp only
      split
      · simpa using read_pres s _ h
      · split
        · simpa using read_pres s _ h
        · exact ih _ t o (read_pres s _ h)
    · simpa using h

/-- A seek call preserves the equality of the two offsets: rejected seeks
leave the state alone, a reset zeroes both, and forward emulation only
issues read calls. -/
lemma seek_pres (s : ZFile) (off : Int) (wh : Nat)
    (h : s.logic_offset = s.decode_offset) :
    (zstdfile_seek s off wh).st.logic_offset
      = (zstdfile_seek s off wh).st.decode_offset := by
  unfold zstdfile_seek zstdfile_seekTo
  split
  · split
    · simpa using h
    · split
      · simpa using h
      · split
        · rfl
        · split
          · exact skipLoop_pres _ s off off h
          · simpa using h
  · split
    · split
      · simpa using h
      · split
        · simpa using h
        · split
          · rfl
          · split
            · exact skipLoop_pres _ s _ off h
            · simpa using h
    · simpa using h

/-- A successful compressed open yields exactly the freshly initialized
cookie over the (rewound) source. -/
lemma open_zstd_state (f : CFile) (mode : List Char) (s : ZFile)
    (h : zstdopenfile f mode = OpenResult.zstd s) : s = openCookie f.content := by
  unfold zstdopenfile at h
  dsimp only at h
  split at h
  · simp at h
  · split at h
    · simp at h
    · split at h
      · simp at h
      · injection h with h; exact h.symm

/-- A seek to absolute offset 0 tears the state down and reinitializes it
(cleanup, rewind the source, init), yielding exactly the open-time
state. -/
lemma seek_zero_eq (s : ZFile) :
    zstdfile_seek s 0 SEEK_SET = ⟨0, 0, openCookie s.src⟩ := by
  unfold zstdfile_seek zstdfile_seekTo
  rw [if_pos rfl, if_neg (by norm_num), if_neg (by simp), if_pos rfl]
  rfl

/-- C1: on a source with a magic-matching header and one complete frame
decoding to "hello world", reading 5 bytes yields "hello" at offset 5 and
reading 6 more yields " world" at offset 11 — but, contrary to the claim,
the next read call returns -1 with errno `ENOBUFS` (the code warns
"truncated zstd stream" on this well-formed stream) instead of the clean
end-of-stream 0: the frame-complete signal of `ZSTD_decompressStream` is
held in the per-call local `ret` and is lost between calls, so the third
call refills at end-of-source and misreads it as truncation. -/
theorem c1_hello_world_reads :
    (zstdfile_read (openCookie helloSrc) 5).rc = 5 ∧
    (zstdfile_read (openCookie helloSrc) 5).out = [104, 101, 108, 108, 111] ∧
    (zstdfile_read (openCookie helloSrc) 5).st.logic_offset = 5 ∧
    (zstdfile_read ((zstdfile_read (openCookie helloSrc) 5).st) 6).rc = 6 ∧
    (zstdfile_read ((zstdfile_read (openCookie helloSrc) 5).st) 6).out
      = [32, 119, 111, 114, 108, 100] ∧
    (zstdfile_read ((zstdfile_read (openCookie helloSrc) 5).st) 6).st.logic_offset = 11 ∧
    (zstdfile_read ((zstdfile_read ((zstdfile_read (openCookie helloSrc) 5).st) 6).st) 1).rc
      = -1 ∧
    (zstdfile_read ((zstdfile_read ((zstdfile_read (openCookie helloSrc) 5).st) 6).st) 1).errno
      = some ENOBUFS := by
  decide

/-- C2 (counterexample to the claim as stated): on a mid-frame-truncated
source, the read that notices truncation returns a short read of 5 and
sets `truncated`; the next read returns -1; but the read after that
returns 0 (because the failing read also set `eof`, and `eof` short
circuits every later call to a 0 return), so it is not the case that every
read call after the failing one returns a negative result. -/
theorem c2_counterexample :
    (zstdfile_read (openCookie helloTrunc) 100).st.truncated = true ∧
    (zstdfile_read (openCookie helloTrunc) 100).rc = 5 ∧
    (zstdfile_read ((zstdfile_read (openCookie helloTrunc) 100).st) 1).rc = -1 ∧
    (zstdfile_read ((zstdfile_read ((zstdfile_read (openCookie helloTrunc) 100).st) 1).st) 1).rc
      = 0 := by
  decide

/-- C2 (amended): once `truncated` is set, no read call ever returns a
positive count and `truncated` stays set; while `eof` is still unset, a
read with nonzero size returns -1 with errno `ENOBUFS` and sets `eof`;
once `eof` is set every further read returns 0 with unchanged state. -/
theorem c2_truncated_terminal (s : ZFile) (n : Nat) (ht : s.truncated = true) :
    (zstdfile_read s n).rc ≤ 0 ∧
    (zstdfile_read s n).st.truncated = true ∧
    (s.eof = false → 0 < n →
      (zstdfile_read s n).rc = -1 ∧ (zstdfile_read s n).errno = some ENOBUFS ∧
      (zstdfile_read s n).st.eof = true) ∧
    (s.eof = true → (zstdfile_read s n).rc = 0 ∧ (zstdfile_read s n).st = s) := by
  unfold zstdfile_read
  by_cases hn0 : n = 0
  · rw [if_pos hn0]
    dsimp only
    exact ⟨le_refl 0, ht, fun _ hn => absurd hn0 (by omega), fun _ => ⟨rfl, rfl⟩⟩
  · rw [if_neg hn0]
    by_cases he : s.eof = true
    · rw [if_pos he]
      dsimp only
      refine ⟨le_refl 0, ht, fun hf _ => ?_, fun _ => ⟨rfl, rfl⟩⟩
      rw [hf] at he
      simp at he
    · rw [if_neg he, if_pos ht]
      dsimp only
      refine ⟨by norm_num, ht, fun _ _ => ⟨rfl, rfl, rfl⟩, fun heq => absurd heq he⟩

/-- Witness for C2's amended theorem at a concrete truncated state. -/
theorem c2_truncated_terminal_witness :
    (zstdfile_read (openCookie helloTrunc) 100).st.truncated = true ∧
    (zstdfile_read ((zstdfile_read (openCookie helloTrunc) 100).st) 1).rc ≤ 0 :=
  ⟨by decide,
   (c2_truncated_terminal ((zstdfile_read (openCookie helloTrunc) 100).st) 1 (by decide)).1⟩

/-- C3: a read call that can reach the error path (nonzero size, `eof` not
yet set) satisfies: if any bytes were delivered this call, the call
returns exactly that positive count with no errno (a short read); if no
bytes were delivered and the stream is truncated, it returns -1, sets
errno to `ENOBUFS` and sets `eof`; if no bytes were delivered and the
stream is not truncated (clean end-of-stream), it returns 0 with no
errno. -/
theorem c3_error_path (s : ZFile) (n : Nat) (hn : 0 < n) (he : s.eof = false) :
    ((zstdfile_read s n).out ≠ [] →
        (zstdfile_read s n).rc = ((zstdfile_read s n).out.length : Int) ∧
        (zstdfile_read s n).errno = none) ∧
    ((zstdfile_read s n).out = [] → (zstdfile_read s n).st.truncated = true →
        (zstdfile_read s n).rc = -1 ∧ (zstdfile_read s n).errno = some ENOBUFS ∧
        (zstdfile_read s n).st.eof = true) ∧
    ((zstdfile_read s n).out = [] → (zstdfile_read s n).st.truncated = false →
        (zstdfile_read s n).rc = 0 ∧ (zstdfile_read s n).errno = none) := by
  unfold zstdfile_read
  rw [if_neg (by omega), if_neg (by simp [he])]
  by_cases ht : s.truncated = true
  · rw [if_pos ht]
    dsimp only
    refine ⟨fun hne => absurd rfl hne, fun _ _ => ⟨rfl, rfl, rfl⟩, fun _ hf => ?_⟩
    rw [ht] at hf
    simp at hf
  · rw [if_neg ht]
    dsimp only
    split
    · rename_i hl
      dsimp only
      refine ⟨fun _ => ⟨rfl, rfl⟩, fun h0 _ => ?_, fun h0 _ => ?_⟩ <;>
        · rw [h0] at hl; simp at hl
    · rename_i hl
      have h0 : (readLoop (readFuel s) s 1 (s.logic_offset - s.decode_offset) n []).1 = [] :=
        List.length_eq_zero.mp (by omega)
      split
      · rename_i ht2
        dsimp only
        refine ⟨fun hne => absurd h0 hne, fun _ _ => ⟨rfl, rfl, rfl⟩, fun _ hf => ?_⟩
        rw [ht2] at hf
        simp at hf
      · rename_i ht2
        dsimp only
        exact ⟨fun hne => absurd h0 hne, fun _ ht3 => absurd ht3 ht2, fun _ _ => ⟨rfl, rfl⟩⟩

/-- Witness for C3 at a concrete read that delivers bytes. -/
theorem c3_error_path_witness :
    0 < 5 ∧ (openCookie helloSrc).eof = false ∧
    ((zstdfile_read (openCookie helloSrc) 5).out ≠ [] →
        (zstdfile_read (openCookie helloSrc) 5).rc
          = ((zstdfile_read (openCookie helloSrc) 5).out.length : Int) ∧
        (zstdfile_read (openCookie helloSrc) 5).errno = none) :=
  ⟨by decide, by decide, (c3_error_path (openCookie helloSrc) 5 (by decide) (by decide)).1⟩

/-- C4: a readable-mode open of a source of at least 4 bytes whose first 4
bytes do not decode (little-endian) to the zstd magic returns the
original, unwrapped source rewound to position 0 and flagged "not
compressed" (the `plain` result carries no Stream State and no
buffers). -/
theorem c4_not_zstd_passthrough (content : List Byte) (mode : List Char)
    (hw : mode.contains 'w' = false) (ha : mode.contains 'a' = false)
    (hlen : 4 ≤ content.length)
    (hmagic : le32dec (content.take 4) ≠ ZSTD_MAGICNUMBER) :
    zstdopenfile ⟨content, 0⟩ mode = OpenResult.plain ⟨content, 0⟩ := by
  unfold zstdopenfile
  rw [if_neg (by rw [hw, ha]; simp)]
  dsimp only
  rw [if_neg (by omega), List.drop_zero, if_pos hmagic]

/-- Witness for C4 at a concrete non-matching source. -/
theorem c4_not_zstd_passthrough_witness :
    4 ≤ ([0, 0, 0, 0] : List Byte).length ∧
    le32dec (([0, 0, 0, 0] : List Byte).take 4) ≠ ZSTD_MAGICNUMBER ∧
    zstdopenfile ⟨[0, 0, 0, 0], 0⟩ ['r'] = OpenResult.plain ⟨[0, 0, 0, 0], 0⟩ :=
  ⟨by decide, by decide,
   c4_not_zstd_passthrough [0, 0, 0, 0] ['r'] (by decide) (by decide) (by decide) (by decide)⟩

/-- C5: a seek whose whence is neither `SEEK_SET` nor `SEEK_CUR`, or whose
resulting absolute target is negative, or whose target is a nonzero
backward position, returns -1 and leaves the entire stream state (and the
caller's offset variable) unchanged. -/
theorem c5_invalid_seek_rejected (s : ZFile) (offset : Int) (whence : Nat)
    (h : (whence ≠ SEEK_SET ∧ whence ≠ SEEK_CUR) ∨
         seekTarget s offset whence < 0 ∨
         (seekTarget s offset whence < (s.logic_offset : Int) ∧
           seekTarget s offset whence ≠ 0)) :
    zstdfile_seek s offset whence = ⟨-1, offset, s⟩ := by
  unfold zstdfile_seek
  by_cases hs : whence = SEEK_SET
  · rw [if_pos hs]
    have htgt : seekTarget s offset whence = offset := by rw [seekTarget, if_pos hs]
    rw [htgt] at h
    unfold zstdfile_seekTo
    rcases h with ⟨h1, _⟩ | h | ⟨h1, h2⟩
    · exact absurd hs h1
    · rw [if_pos h]
    · by_cases hneg : offset < 0
      · rw [if_pos hneg]
      · rw [if_neg hneg, if_pos ⟨h1, h2⟩]
  · rw [if_neg hs]
    by_cases hc : whence = SEEK_CUR
    · rw [if_pos hc]
      have htgt : seekTarget s offset whence = (s.logic_offset : Int) + offset := by
        rw [seekTarget, if_neg hs]
      rw [htgt] at h
      unfold zstdfile_seekTo
      rcases h with ⟨_, h2⟩ | h | ⟨h1, h2⟩
      · exact absurd hc h2
      · rw [if_pos h]
      · by_cases hneg : (s.logic_offset : Int) + offset < 0
        · rw [if_pos hneg]
        · rw [if_neg hneg, if_pos ⟨h1, h2⟩]
    · rw [if_neg hc]

/-- Witness for C5 at a concrete negative-target seek. -/
theorem c5_invalid_seek_rejected_witness :
    seekTarget (openCookie helloSrc) (-3) SEEK_SET < 0 ∧
    zstdfile_seek (openCookie helloSrc) (-3) SEEK_SET = ⟨-1, -3, openCookie helloSrc⟩ :=
  ⟨by decide,
   c5_invalid_seek_rejected (openCookie helloSrc) (-3) SEEK_SET (Or.inr (Or.inl (by decide)))⟩

/-- C6: from a freshly opened "hello world" stream (decoded length 11) a
seek to 100 does succeed clamped to 11 — but, contrary to the claim's
universal statement, after reading 5 bytes (which leaves undelivered
decoded output pending and the lost frame-complete signal, as in C1) a
forward seek to 12 returns -1 and leaves the stream in the
truncated/eof error state instead of succeeding clamped to 11: the skip
loop's inner read misreads the fully consumed frame as truncation. -/
theorem c6_seek_past_end_fails :
    readSeq (openCookie helloSrc) [100, 1]
      = [(11, [104, 101, 108, 108, 111, 32, 119, 111, 114, 108, 100]), (0, [])] ∧
    (zstdfile_seek (openCookie helloSrc) 100 SEEK_SET).rc = 0 ∧
    (zstdfile_seek (openCookie helloSrc) 100 SEEK_SET).off = 11 ∧
    (zstdfile_read ((zstdfile_read (openCookie helloSrc) 5).st) 6).st.logic_offset = 11 ∧
    (zstdfile_seek ((zstdfile_read (openCookie helloSrc) 5).st) 12 SEEK_SET).rc = -1 ∧
    (zstdfile_seek ((zstdfile_read (openCookie helloSrc) 5).st) 12 SEEK_SET).st.truncated
      = true := by
  decide

/-- C7: seeking to offset 0 from any state over a compressed source yields
a successful seek whose resulting state is exactly the state a fresh open
of the same source produces, so any subsequent sequence of reads (in
particular reading to end-of-stream) reproduces the fresh-open output
byte for byte. -/
theorem c7_rewind_idempotent (s : ZFile) (sizes : List Nat)
    (hlen : 4 ≤ s.src.length)
    (hmagic : le32dec (s.src.take 4) = ZSTD_MAGICNUMBER) :
    (zstdfile_seek s 0 SEEK_SET).rc = 0 ∧
    zstdopenfile ⟨s.src, 0⟩ ['r'] = OpenResult.zstd (openCookie s.src) ∧
    readSeq (zstdfile_seek s 0 SEEK_SET).st sizes = readSeq (openCookie s.src) sizes := by
  have h0 := seek_zero_eq s
  refine ⟨by rw [h0], ?_, by rw [h0]⟩
  unfold zstdopenfile
  rw [if_neg (by simp)]
  dsimp only
  rw [if_neg (by omega), List.drop_zero, if_neg (by simpa using hmagic)]

/-- Witness for C7: rewind after consuming 5 bytes of the "hello world"
stream and re-read. -/
theorem c7_rewind_idempotent_witness :
    4 ≤ ((zstdfile_read (openCookie helloSrc) 5).st).src.length ∧
    le32dec (((zstdfile_read (openCookie helloSrc) 5).st).src.take 4) = ZSTD_MAGICNUMBER ∧
    readSeq (zstdfile_seek ((zstdfile_read (openCookie helloSrc) 5).st) 0 SEEK_SET).st [5, 6, 1]
      = readSeq (openCookie ((zstdfile_read (openCookie helloSrc) 5).st).src) [5, 6, 1] :=
  ⟨by decide, by decide,
   (c7_rewind_idempotent ((zstdfile_read (openCookie helloSrc) 5).st) [5, 6, 1]
     (by decide) (by decide)).2.2⟩

/-- C8: in every stream state reachable through open, read and seek,
`logic_offset` equals `decode_offset`; hence the assertion at read entry
that their difference is zero never fails. -/
theorem c8_offsets_equal (s : ZFile) (h : Reachable s) :
    s.logic_offset = s.decode_offset := by
  induction h with
  | opened f mode s hs => rw [open_zstd_state f mode s hs]; rfl
  | read s n _ ih => exact read_pres s n ih
  | seek s off wh _ ih => exact seek_pres s off wh ih

/-- Witness for C8 at a concrete reachable state (a fresh compressed
open). -/
theorem c8_offsets_equal_witness :
    (openCookie helloSrc).logic_offset = (openCookie helloSrc).decode_offset :=
  c8_offsets_equal (openCookie helloSrc)
    (Reachable.opened ⟨helloSrc, 0⟩ ['r'] (openCookie helloSrc) (by decide))

/-- C9: seeking to offset 0 (by `SEEK_SET`, or by `SEEK_CUR` with the
negated current offset) succeeds from every stream state, including
error states: it unconditionally reinitializes the state — clearing
`eof`, `truncated`, both offsets and all buffer cursors — and rewinds the
source, yielding exactly the state a fresh open produces. -/
theorem c9_seek_zero_resets (s : ZFile) :
    zstdfile_seek s 0 SEEK_SET = ⟨0, 0, openCookie s.src⟩ ∧
    zstdfile_seek s (-(s.logic_offset : Int)) SEEK_CUR = ⟨0, 0, openCookie s.src⟩ ∧
    (openCookie s.src).eof = false ∧ (openCookie s.src).truncated = false ∧
    (openCookie s.src).logic_offset = 0 ∧ (openCookie s.src).src_pos = 0 := by
  refine ⟨seek_zero_eq s, ?_, rfl, rfl, rfl, rfl⟩
  unfold zstdfile_seek zstdfile_seekTo
  rw [if_neg (by simp [SEEK_SET, SEEK_CUR]), if_pos rfl]
  rw [if_neg (by simp), if_neg (by simp), if_pos (by simp)]
  rfl

/-- C10: an emulated forward seek is not atomic on error: on the
mid-frame-truncated source, a fresh stream sits at offset 0, and a
forward seek to 8 returns -1 while `logic_offset` has already advanced to
5 (the decodable prefix the skip loop consumed and discarded). -/
theorem c10_forward_seek_not_atomic :
    (openCookie helloTrunc).logic_offset = 0 ∧
    (zstdfile_seek (openCookie helloTrunc) 8 SEEK_SET).rc = -1 ∧
    (zstdfile_seek (openCookie helloTrunc) 8 SEEK_SET).st.logic_offset = 5 := by
  decide

end Zstdfile
